import Mathlib

/-!
Shallow embedding of `src/dashboard/app.py` (a PyShiny live temperature
dashboard) over exact rationals, together with theorems settling the
frozen claims about it.

Python floats are modelled as `ℚ`.  `round(x, 1)` is modelled by `round1`
below.  The process-wide mutable deque `reactive_value_wrapper` is
modelled by threading its contents (a `List Entry`) explicitly; object
identity of the deque — needed to talk about aliasing of the value the
code calls `deque_snapshot` — is modelled by the one-element reference
type `DequeRef` and an explicit dereference against the current store.
-/

set_option autoImplicit false

/-- `round(x, 1)` from lines 33-35 and `.round(1)` from lines 169-171:
rounding to one decimal place, i.e. to an integer multiple of `1/10`.
Mathlib `round` rounds half up, while Python rounds the underlying binary
float (so exact decimal ties such as `256.15` may differ); no theorem in
this development depends on a tie. -/
def round1 (q : ℚ) : ℚ := (round (10 * q) : ℤ) / 10

/-- One reading, the dictionary built at lines 38-43.  Note that the
generated dictionary stores all three temperature units, not only
Celsius. -/
structure Entry where
  temp_celsius : ℚ
  temp_fahrenheit : ℚ
  temp_kelvin : ℚ
  timestamp : String
deriving DecidableEq, Repr

/-- The Fahrenheit conversion formula, as applied at line 34 (inside a
`round(·, 1)`) and at line 165 (unrounded, re-applied at display time). -/
def to_fahrenheit (c : ℚ) : ℚ := c * 9 / 5 + 32

/-- The Kelvin conversion formula, as applied at line 35 (inside a
`round(·, 1)`) and at line 166 (unrounded, re-applied at display time). -/
def to_kelvin (c : ℚ) : ℚ := c + 273.15

/-- The data-generation logic of lines 33-43.  `u` is the value drawn by
`random.uniform(-18, -16)` and `ts` the formatted wall-clock timestamp;
both are inputs of the model since randomness and clocks are external.
`temp_celsius` is `round(u, 1)`; the Fahrenheit and Kelvin fields are
converted from it and rounded already here, at generation time. -/
def mkEntry (u : ℚ) (ts : String) : Entry :=
  let temp_celsius := round1 u
  { temp_celsius := temp_celsius
    temp_fahrenheit := round1 (to_fahrenheit temp_celsius)
    temp_kelvin := round1 (to_kelvin temp_celsius)
    timestamp := ts }

/-- `collections.deque(maxlen := N).append x`, for a deque holding `d`:
the new element goes to the right end and, past capacity, elements are
discarded from the left end (line 25 fixes `N = DEQUE_SIZE = 5`). -/
def dequeAppend (N : ℕ) (d : List Entry) (x : Entry) : List Entry :=
  let d' := d ++ [x]
  d'.drop (d'.length - N)

/-- `DEQUE_SIZE` (line 24). -/
def DEQUE_SIZE : ℕ := 5

/-- Reference to the single process-wide deque object held in
`reactive_value_wrapper` (line 25).  Line 49 binds `deque_snapshot` to
`reactive_value_wrapper.get()`, which is this object itself, not a copy;
reading through the reference therefore always yields the CURRENT
contents of the store. -/
inductive DequeRef where
  | theDeque
deriving DecidableEq, Repr

/-- Dereference a deque reference against the current contents of the
store.  Because there is only one deque object, this is the store. -/
def deref (_ : DequeRef) (store : List Entry) : List Entry := store

/-- One execution of the body of `reactive_calc_combined` (lines 28-58),
with the current deque contents `store`, drawn random value `u` and
timestamp `ts` as explicit inputs.  Returns the deque contents after the
`append` of line 46, and the returned triple: `deque_snapshot` (line 49,
a REFERENCE to the deque object), `df` (line 52, `pd.DataFrame` copies
the entries by value), and `latest_dictionary_entry` (line 55, the entry
just appended). -/
def reactive_calc_combined (store : List Entry) (u : ℚ) (ts : String) :
    List Entry × DequeRef × List Entry × Entry :=
  let e := mkEntry u ts
  let store' := dequeAppend DEQUE_SIZE store e
  (store', DequeRef.theDeque, store', e)

/-- A sequence of ticks: fold `reactive_calc_combined` over a list of
(random value, timestamp) inputs, keeping only the deque contents. -/
def runTicks (store : List Entry) (inputs : List (ℚ × String)) : List Entry :=
  inputs.foldl (fun s p => (reactive_calc_combined s p.1 p.2).1) store

-- Basic facts about the deque.

theorem length_dequeAppend (N : ℕ) (d : List Entry) (x : Entry) :
    (dequeAppend N d x).length = min (d.length + 1) N := by
  simp [dequeAppend]
  omega

theorem dequeAppend_of_full (d : List Entry) (x : Entry)
    (h : d.length = DEQUE_SIZE) : dequeAppend DEQUE_SIZE d x = d.tail ++ [x] := by
  have h5 : d.length = 5 := h
  have hk : (d ++ [x]).length - DEQUE_SIZE = 1 := by
    simp [List.length_append, h5, DEQUE_SIZE]
  simp only [dequeAppend, hk]
  cases d with
  | nil => simp at h5
  | cons a t => simp

theorem runTicks_length_le (inputs : List (ℚ × String)) (store : List Entry)
    (h : store.length ≤ DEQUE_SIZE) : (runTicks store inputs).length ≤ DEQUE_SIZE := by
  induction inputs generalizing store with
  | nil => exact h
  | cons p rest ih =>
    have hstep : ((reactive_calc_combined store p.1 p.2).1).length ≤ DEQUE_SIZE := by
      simp [reactive_calc_combined, length_dequeAppend]
    exact ih _ hstep

/-- Formatting of a temperature value inside the f-string of line 141.
All temperatures the code displays there are outputs of `round1`, i.e.
integer multiples of `1/10`; for such values the Python float prints as
the signed integer part, a dot, and one digit (e.g. `1.4`, `-17.0`).
`q` is assumed to be a multiple of `1/10`; `round (10 * q)` then recovers
its numerator exactly. -/
def fmt1 (q : ℚ) : String :=
  let k : ℤ := round (10 * q)
  let sign := if k < 0 then "-" else ""
  let a := k.natAbs
  sign ++ toString (a / 10) ++ "." ++ toString (a % 10)

/-- The classification of lines 131-138: threshold `-17` (the Python int
`-17`, equal to `-17.0`), message chosen by a strict comparison of the
Celsius value against it. -/
def temp_message_of (celsius : ℚ) : String :=
  let threshold : ℚ := -17
  if celsius > threshold then "It is warmer than usual"
  else "It is colder than usual"

/-- The body of `display_temp` (lines 108-141) for a given latest entry
and selected unit: pick value and unit symbol by the radio-button string
(lines 121-129; any string other than Celsius and Fahrenheit falls to
the Kelvin branch), classify by the Celsius value only, and format. -/
def display_temp (e : Entry) (selected_unit : String) : String :=
  let tv : ℚ × String :=
    if selected_unit = "Celsius" then (e.temp_celsius, "°C")
    else if selected_unit = "Fahrenheit" then (e.temp_fahrenheit, "°F")
    else (e.temp_kelvin, "K")
  fmt1 tv.1 ++ tv.2 ++ ". " ++ temp_message_of e.temp_celsius

/-- The body of `display_time` (lines 150-153): the stored timestamp
string, unmodified. -/
def display_time (e : Entry) : String := e.timestamp

/-- The body of `display_df` (lines 159-173): the table rows, one per
entry in history order.  Lines 165-166 overwrite the Fahrenheit and
Kelvin columns with unrounded conversions recomputed from the Celsius
column; lines 169-171 then round all three columns to one decimal.
Row fields: (temp_celsius, temp_fahrenheit, temp_kelvin, timestamp). -/
def display_df (hist : List Entry) : List (ℚ × ℚ × ℚ × String) :=
  hist.map (fun e =>
    (round1 e.temp_celsius,
     round1 (to_fahrenheit e.temp_celsius),
     round1 (to_kelvin e.temp_celsius),
     e.timestamp))

/-- Arithmetic mean, as computed by numpy inside `scipy.stats.linregress`. -/
def qmean (l : List ℚ) : ℚ := l.sum / l.length

/-- Float division as it behaves inside `linregress`: a zero denominator
does not raise in numpy; it produces a non-finite value (`nan` when the
numerator is also zero, as happens for a single data point).  We model
any such non-finite result as `none`. -/
def pydiv (a b : ℚ) : Option ℚ := if b = 0 then none else some (a / b)

/-- `scipy.stats.linregress(x, y)` restricted to the fields the app uses
(slope, intercept), over exact rationals.  scipy raises `ValueError` on
empty input, and when all x values are identical (numpy
`amax(x) == amin(x)`) AND there is more than one point; otherwise
slope = ssxym / ssxm and intercept = mean y - slope * mean x, where ssxm
and ssxym are the (biased) covariance entries.  With a single point
ssxm = ssxym = 0, so the slope is the float `nan` (modelled `none`), and
so is the intercept. -/
def linregress (xs ys : List ℚ) : Except String (Option ℚ × Option ℚ) :=
  if xs.isEmpty then .error "ValueError: Inputs must not be empty."
  else if 1 < xs.length ∧ ∀ x ∈ xs, x = xs.headI then
    .error "ValueError: Cannot calculate a linear regression if all x values are identical"
  else
    let xm := qmean xs
    let ym := qmean ys
    let ssxm := qmean (xs.map (fun x => (x - xm) ^ 2))
    let ssxym := qmean ((xs.zip ys).map (fun p => (p.1 - xm) * (p.2 - ym)))
    let slope := pydiv ssxym ssxm
    let intercept := slope.map (fun s => ym - s * xm)
    .ok (slope, intercept)

/-- The regression performed by `display_plot` on a nonempty history
(lines 194-199): y is the Celsius column, x is the integer position
index `range(len(df))` — not elapsed real time. -/
def display_plot_fit (hist : List Entry) : Except String (Option ℚ × Option ℚ) :=
  linregress ((List.range hist.length).map (fun n => (n : ℚ)))
    (hist.map (fun e => e.temp_celsius))

/-- The figure assembled by `display_plot`, restricted to the data the
claims are about: the scatter of Celsius values and the added regression
trace `best_fit_line` (line 200-203).  `regression = some l` means the
trace was added with values `l` (a `none` inside `l` is a float `nan`). -/
structure Fig where
  title : String
  scatterY : List ℚ
  regression : Option (List (Option ℚ))
deriving DecidableEq, Repr

/-- The body of `display_plot` (lines 177-212).  The only guard is
`if not df.empty` (line 182): on an empty history the plotting block is
skipped and line 212 returns the never-assigned local `fig`, a
`NameError`.  On a nonempty history the regression of lines 194-200 is
always attempted and its trace always added (line 203). -/
def display_plot (hist : List Entry) : Except String Fig :=
  if hist.isEmpty then .error "NameError: name fig is not defined"
  else
    match display_plot_fit hist with
    | .error e => .error e
    | .ok (slope, intercept) =>
      let xvals := (List.range hist.length).map (fun n => (n : ℚ))
      let bfl := xvals.map (fun x =>
        (slope.bind fun s => intercept.map fun i => s * x + i))
      .ok { title := "Temperature Readings with Regression Line"
            scatterY := hist.map (fun e => e.temp_celsius)
            regression := some bfl }

-- Helper lemmas shared by the claim theorems.

theorem temp_message_warmer_iff (c : ℚ) :
    temp_message_of c = "It is warmer than usual" ↔ -17 < c := by
  simp only [temp_message_of]
  split
  · rename_i h
    simpa using h
  · rename_i h
    simp only [gt_iff_lt, not_lt] at h
    constructor
    · intro heq
      exact absurd heq (by decide)
    · intro hlt
      exact absurd hlt (not_lt.mpr h)

theorem temp_message_colder_of_le (c : ℚ) (h : c ≤ -17) :
    temp_message_of c = "It is colder than usual" := by
  simp only [temp_message_of]
  split
  · rename_i hw
    exact absurd (lt_of_lt_of_le hw h) (by norm_num)
  · rfl

theorem getLast?_dequeAppend (N : ℕ) (hN : 0 < N) (d : List Entry) (x : Entry) :
    (dequeAppend N d x).getLast? = some x := by
  unfold dequeAppend
  have hle : (d ++ [x]).length - N ≤ d.length := by
    simp only [List.length_append, List.length_singleton]
    omega
  rw [List.drop_append_of_le_length hle, List.getLast?_concat]

theorem dequeAppend_ne_nil (N : ℕ) (hN : 0 < N) (d : List Entry) (x : Entry) :
    dequeAppend N d x ≠ [] := by
  have h := length_dequeAppend N d x
  intro hnil
  rw [hnil] at h
  simp at h
  omega

-- Claim C1.

/-- C1: the reading history is a bounded FIFO of capacity 5.  After any
sequence of ticks from process start the history holds at most 5
readings; a push onto a full history evicts exactly the oldest entry and
keeps the order of the rest; and pushing the seven Celsius values
1, 2, 3, 4, 5, 6, 7 from empty leaves a snapshot whose Celsius values
are [3, 4, 5, 6, 7] in arrival order. -/
theorem C1_history_bounded_fifo :
    (∀ inputs : List (ℚ × String), (runTicks [] inputs).length ≤ DEQUE_SIZE)
    ∧ (∀ (d : List Entry) (x : Entry), d.length = DEQUE_SIZE →
        dequeAppend DEQUE_SIZE d x = d.tail ++ [x])
    ∧ (runTicks [] [(1, "t1"), (2, "t2"), (3, "t3"), (4, "t4"), (5, "t5"),
        (6, "t6"), (7, "t7")]).map (fun e => e.temp_celsius) = [3, 4, 5, 6, 7] := by
  refine ⟨fun inputs => runTicks_length_le inputs [] (by simp [DEQUE_SIZE]),
    dequeAppend_of_full, ?_⟩
  simp only [runTicks, List.foldl, reactive_calc_combined, dequeAppend, DEQUE_SIZE]
  norm_num
  simp only [mkEntry]
  norm_num [round1, round_eq]

/-- Witness for C1 at a concrete full history. -/
theorem C1_history_bounded_fifo_witness :
    ([mkEntry 1 "a", mkEntry 2 "b", mkEntry 3 "c", mkEntry 4 "d",
        mkEntry 5 "e"] : List Entry).length = DEQUE_SIZE
    ∧ dequeAppend DEQUE_SIZE
        [mkEntry 1 "a", mkEntry 2 "b", mkEntry 3 "c", mkEntry 4 "d", mkEntry 5 "e"]
        (mkEntry 6 "f")
      = [mkEntry 1 "a", mkEntry 2 "b", mkEntry 3 "c", mkEntry 4 "d",
          mkEntry 5 "e"].tail ++ [mkEntry 6 "f"] :=
  ⟨by decide, C1_history_bounded_fifo.2.1 _ _ (by decide)⟩

-- Claim C2.

/-- C2: a reading whose Celsius value is exactly the threshold -17.0 is
classified colder: the warmer message appears iff the Celsius value
strictly exceeds -17, a reading with Celsius exactly -17 yields the
colder message, and selecting Fahrenheit on the reading generated from
the draw -17.0 displays "1.4°F. It is colder than usual". -/
theorem C2_threshold_boundary :
    (∀ e : Entry,
      temp_message_of e.temp_celsius = "It is warmer than usual" ↔ -17 < e.temp_celsius)
    ∧ (∀ e : Entry, e.temp_celsius = -17 →
        temp_message_of e.temp_celsius = "It is colder than usual")
    ∧ display_temp (mkEntry (-17) "2024-01-01 00:00:00") "Fahrenheit"
        = "1.4°F. It is colder than usual" := by
  refine ⟨fun e => temp_message_warmer_iff _,
    fun e he => temp_message_colder_of_le _ (le_of_eq he), ?_⟩
  have hF : (mkEntry (-17) "2024-01-01 00:00:00").temp_fahrenheit = 7 / 5 := by
    simp only [mkEntry]
    norm_num [round1, round_eq, to_fahrenheit]
  have hC : (mkEntry (-17) "2024-01-01 00:00:00").temp_celsius = -17 := by
    simp only [mkEntry]
    norm_num [round1, round_eq]
  have hfmt : fmt1 (7 / 5) = "1.4" := by
    have h : round ((10 : ℚ) * (7 / 5 : ℚ)) = 14 := by norm_num [round_eq]
    simp only [fmt1, h]
    rfl
  simp only [display_temp]
  rw [if_neg (by decide), if_pos trivial]
  rw [hC, temp_message_colder_of_le _ (by norm_num)]
  simp only [hF, hfmt]
  rfl

/-- Witness for C2 at an entry whose Celsius value is exactly -17. -/
theorem C2_threshold_boundary_witness :
    (Entry.mk (-17) (7 / 5) (1281 / 5) "t").temp_celsius = -17
    ∧ temp_message_of (Entry.mk (-17) (7 / 5) (1281 / 5) "t").temp_celsius
        = "It is colder than usual" :=
  ⟨rfl, C2_threshold_boundary.2.1 _ rfl⟩

-- Claim C3.

/-- C3 is false as stated: the reading generated from the draw -17.1
stores temp_fahrenheit = 1.2, rounded to one decimal already at
generation time, while the exact conversion of its stored Celsius value
is 1.22; generation also stores Fahrenheit and Kelvin, not only
Celsius. -/
theorem C3_counterexample :
    (mkEntry (-171 / 10) "t").temp_fahrenheit = 6 / 5
    ∧ to_fahrenheit ((mkEntry (-171 / 10) "t").temp_celsius) = 61 / 50
    ∧ ¬ (mkEntry (-171 / 10) "t").temp_fahrenheit
        = to_fahrenheit ((mkEntry (-171 / 10) "t").temp_celsius) := by
  have h1 : (mkEntry (-171 / 10) "t").temp_celsius = -171 / 10 := by
    simp only [mkEntry]
    norm_num [round1, round_eq]
  have h2 : (mkEntry (-171 / 10) "t").temp_fahrenheit = 6 / 5 := by
    simp only [mkEntry]
    norm_num [round1, round_eq, to_fahrenheit]
  refine ⟨h2, ?_, ?_⟩
  · rw [h1]
    norm_num [to_fahrenheit]
  · rw [h2, h1]
    norm_num [to_fahrenheit]

/-- C3 (amended): the Kelvin conversion satisfies
to_kelvin c - c = 273.15 exactly for every c, and the table display does
round conversions recomputed from Celsius at display time; but the
generator also rounds the Fahrenheit and Kelvin conversions to one
decimal place and stores them in every reading (those stored values are
what the current-temperature readout shows). -/
theorem C3_amended_conversions :
    (∀ c : ℚ, to_kelvin c - c = 273.15)
    ∧ (∀ (u : ℚ) (ts : String),
        (mkEntry u ts).temp_celsius = round1 u
        ∧ (mkEntry u ts).temp_fahrenheit = round1 (to_fahrenheit (round1 u))
        ∧ (mkEntry u ts).temp_kelvin = round1 (to_kelvin (round1 u)))
    ∧ (∀ hist : List Entry, display_df hist = hist.map (fun e =>
        (round1 e.temp_celsius, round1 (to_fahrenheit e.temp_celsius),
         round1 (to_kelvin e.temp_celsius), e.timestamp))) :=
  ⟨fun c => by rw [to_kelvin]; ring, fun u ts => ⟨rfl, rfl, rfl⟩, fun hist => rfl⟩

-- Claim C4.

/-- C4 is false as stated: run the accessor once from an empty history,
keep the returned deque_snapshot, then run one further tick; the
contents read through the kept snapshot are no longer what they were
when it was returned (the history grew from one entry to two, and the
snapshot aliases it). -/
theorem C4_counterexample :
    ¬ deref (reactive_calc_combined [] 1 "t1").2.1
        (reactive_calc_combined (reactive_calc_combined [] 1 "t1").1 2 "t2").1
      = deref (reactive_calc_combined [] 1 "t1").2.1
          (reactive_calc_combined [] 1 "t1").1 := by
  intro h
  have hlen := congrArg List.length h
  simp [deref, reactive_calc_combined, length_dequeAppend, DEQUE_SIZE] at hlen

/-- C4 (amended): the value returned as deque_snapshot aliases the live
deque, so dereferencing it always yields the current history — in
particular, whenever a later tick changes the history, the contents seen
through an old snapshot change with it; the DataFrame produced by the
same call is a by-value copy of the history at that moment, and
dereferencing mutates nothing. -/
theorem C4_amended_snapshot_aliases :
    ∀ (s : List Entry) (u₁ u₂ : ℚ) (ts₁ ts₂ : String),
      (reactive_calc_combined s u₁ ts₁).2.2.1 = (reactive_calc_combined s u₁ ts₁).1
      ∧ deref (reactive_calc_combined s u₁ ts₁).2.1 (reactive_calc_combined s u₁ ts₁).1
          = (reactive_calc_combined s u₁ ts₁).1
      ∧ ((reactive_calc_combined (reactive_calc_combined s u₁ ts₁).1 u₂ ts₂).1
            ≠ (reactive_calc_combined s u₁ ts₁).1 →
          deref (reactive_calc_combined s u₁ ts₁).2.1
              (reactive_calc_combined (reactive_calc_combined s u₁ ts₁).1 u₂ ts₂).1
            ≠ deref (reactive_calc_combined s u₁ ts₁).2.1
                (reactive_calc_combined s u₁ ts₁).1) :=
  fun _ _ _ _ _ => ⟨rfl, rfl, fun h => h⟩

/-- Witness for C4 (amended) at a concrete two-tick run. -/
theorem C4_amended_snapshot_aliases_witness :
    (reactive_calc_combined [] 1 "t1").2.2.1 = (reactive_calc_combined [] 1 "t1").1
    ∧ deref (reactive_calc_combined [] 1 "t1").2.1 (reactive_calc_combined [] 1 "t1").1
        = (reactive_calc_combined [] 1 "t1").1
    ∧ deref (reactive_calc_combined [] 1 "t1").2.1
          (reactive_calc_combined (reactive_calc_combined [] 1 "t1").1 2 "t2").1
        ≠ deref (reactive_calc_combined [] 1 "t1").2.1
            (reactive_calc_combined [] 1 "t1").1 :=
  have h := C4_amended_snapshot_aliases [] 1 2 "t1" "t2"
  ⟨h.1, h.2.1, h.2.2 (by
    intro hh
    have hlen := congrArg List.length hh
    simp [reactive_calc_combined, length_dequeAppend, DEQUE_SIZE] at hlen)⟩

-- Claim C5.

/-- C5 is false as stated: on a one-reading history the code does not
return a no-trend sentinel; it attempts the regression, and the figure
carries a best-fit trace whose single value is the float nan (the slope
is 0 / 0, the variance of the single index being zero). -/
theorem C5_counterexample :
    (display_plot [mkEntry (-17) "t"]).map Fig.regression = .ok (some [none]) := by
  simp only [display_plot, display_plot_fit, List.isEmpty, List.length_cons,
    List.length_nil, List.map, List.range_succ, List.range_zero]
  rw [if_neg (by simp)]
  simp only [linregress]
  rw [if_neg (by simp)]
  rw [if_neg (by simp)]
  simp [qmean, pydiv, Except.map]

/-- C5 (amended): no no-trend sentinel exists.  For every single-reading
history the regression is attempted and a nan best-fit trace is added to
the figure; for the empty history the regression is skipped but the
handler fails (it returns the unbound local fig) instead of producing a
figure. -/
theorem C5_amended_degenerate_fit :
    (∀ (q : ℚ) (ts : String),
      (display_plot [mkEntry q ts]).map Fig.regression = .ok (some [none]))
    ∧ (display_plot ([] : List Entry)).isOk = false := by
  refine ⟨fun q ts => ?_, rfl⟩
  simp only [display_plot, display_plot_fit, List.isEmpty, List.length_cons,
    List.length_nil, List.map, List.range_succ, List.range_zero]
  rw [if_neg (by simp)]
  simp only [linregress]
  rw [if_neg (by simp)]
  rw [if_neg (by simp)]
  simp [qmean, pydiv, Except.map]

-- Claim C6.

/-- C6: the Celsius value of every reading generated from a uniform draw
in the closed interval [-18, -16] lies in [-18, -16] and is an integer
multiple of 0.1. -/
theorem C6_generated_range_precision (u : ℚ) (ts : String)
    (h1 : -18 ≤ u) (h2 : u ≤ -16) :
    -18 ≤ (mkEntry u ts).temp_celsius
    ∧ (mkEntry u ts).temp_celsius ≤ -16
    ∧ ∃ k : ℤ, (mkEntry u ts).temp_celsius = (k : ℚ) / 10 := by
  have hc : (mkEntry u ts).temp_celsius = ((round (10 * u) : ℤ) : ℚ) / 10 := rfl
  have hl : (-180 : ℤ) ≤ round (10 * u) := by
    rw [round_eq, Int.le_floor]
    push_cast
    linarith
  have hu : round (10 * u) ≤ (-160 : ℤ) := by
    rw [round_eq]
    have hlt : ⌊10 * u + 1 / 2⌋ < -159 := by
      rw [Int.floor_lt]
      push_cast
      linarith
    omega
  have hlq : (-180 : ℚ) ≤ ((round (10 * u) : ℤ) : ℚ) := by exact_mod_cast hl
  have huq : ((round (10 * u) : ℤ) : ℚ) ≤ -160 := by exact_mod_cast hu
  refine ⟨?_, ?_, ⟨round (10 * u), hc⟩⟩
  · rw [hc]
    linarith
  · rw [hc]
    linarith

/-- Witness for C6 at the draw u = -17. -/
theorem C6_generated_range_precision_witness :
    ((-18 : ℚ) ≤ -17 ∧ (-17 : ℚ) ≤ -16)
    ∧ (-18 ≤ (mkEntry (-17) "t").temp_celsius
       ∧ (mkEntry (-17) "t").temp_celsius ≤ -16
       ∧ ∃ k : ℤ, (mkEntry (-17) "t").temp_celsius = (k : ℚ) / 10) :=
  ⟨⟨by decide, by decide⟩, C6_generated_range_precision (-17) "t" (by decide) (by decide)⟩

-- Claim C7.

/-- C7: for a fixed reading the classification message in the string
returned by the current-temperature display is the same for any two
selected units: both displayed strings end with the same
temp_message_of suffix, which depends only on the Celsius value. -/
theorem C7_classification_unit_invariance :
    ∀ (e : Entry) (u₁ u₂ : String), ∃ v₁ v₂ : String,
      display_temp e u₁ = v₁ ++ temp_message_of e.temp_celsius
      ∧ display_temp e u₂ = v₂ ++ temp_message_of e.temp_celsius :=
  fun _ _ _ => ⟨_, _, rfl, rfl⟩

-- Claim C8.

/-- C8: the trend fit regresses Celsius against the integer position
index 0..n-1; on the perfectly linear history -18, -17.5, -17, -16.5,
-16 it recovers slope 1/2 and intercept -18 exactly. -/
theorem C8_ols_linear_recovery :
    display_plot_fit
      [mkEntry (-18) "t0", mkEntry (-175 / 10) "t1", mkEntry (-17) "t2",
       mkEntry (-165 / 10) "t3", mkEntry (-16) "t4"]
      = .ok (some (1 / 2), some (-18)) := by
  have hys : [mkEntry (-18) "t0", mkEntry (-175 / 10) "t1", mkEntry (-17) "t2",
      mkEntry (-165 / 10) "t3", mkEntry (-16) "t4"].map (fun e => e.temp_celsius)
      = [-18, -175 / 10, -17, -165 / 10, -16] := by
    simp only [List.map, mkEntry]
    norm_num [round1, round_eq]
  simp only [display_plot_fit, hys]
  have hxs : (List.range 5).map (fun n => (n : ℚ)) = [0, 1, 2, 3, 4] := by
    simp [List.range_succ]
  simp only [List.length_cons, List.length_nil]
  rw [hxs]
  simp only [linregress]
  rw [if_neg (by simp), if_neg (by push_neg; intro h; exact ⟨1, by simp, by norm_num⟩)]
  simp only [qmean, pydiv, List.sum_cons, List.sum_nil, List.zip, List.zipWith, List.map,
    List.length_cons, List.length_nil]
  norm_num

-- Claim C9.

/-- C9 is false as stated: on the empty (pre-first-tick) history the
plot surface does not render a placeholder; the handler skips the
plotting block and returns the never-assigned local fig, i.e. it fails
with a NameError. -/
theorem C9_counterexample :
    display_plot ([] : List Entry) = .error "NameError: name fig is not defined" := rfl

/-- C9 (amended): there is no pre-first-tick read state at all: every
invocation of the combined accessor appends a freshly generated reading
before returning, so renderers always observe a nonempty history and a
latest value that is real generated data (no no-data sentinel exists in
the code); and the single empty-history branch, in the plot handler,
fails instead of rendering a placeholder. -/
theorem C9_amended_no_placeholder :
    (∀ (s : List Entry) (u : ℚ) (ts : String),
      (reactive_calc_combined s u ts).1 ≠ []
      ∧ (reactive_calc_combined s u ts).2.2.2 = mkEntry u ts)
    ∧ (display_plot ([] : List Entry)).isOk = false :=
  ⟨fun s u ts => ⟨dequeAppend_ne_nil DEQUE_SIZE (by norm_num [DEQUE_SIZE]) s (mkEntry u ts), rfl⟩,
   rfl⟩

-- Claim C10.

/-- C10: each execution of the combined accessor body appends exactly
one reading before returning: the resulting history length is
min(old + 1, 5), the history is never empty, the snapshot dereferenced
at return time is exactly that history, and its last element is the
returned latest entry. -/
theorem C10_latest_is_last_of_snapshot :
    ∀ (s : List Entry) (u : ℚ) (ts : String),
      ((reactive_calc_combined s u ts).1).length = min (s.length + 1) DEQUE_SIZE
      ∧ (reactive_calc_combined s u ts).1 ≠ []
      ∧ deref (reactive_calc_combined s u ts).2.1 (reactive_calc_combined s u ts).1
          = (reactive_calc_combined s u ts).1
      ∧ ((reactive_calc_combined s u ts).1).getLast?
          = some (reactive_calc_combined s u ts).2.2.2 :=
  fun s u ts =>
    ⟨length_dequeAppend DEQUE_SIZE s (mkEntry u ts),
     dequeAppend_ne_nil DEQUE_SIZE (by norm_num [DEQUE_SIZE]) s (mkEntry u ts),
     rfl,
     getLast?_dequeAppend DEQUE_SIZE (by norm_num [DEQUE_SIZE]) s (mkEntry u ts)⟩
